import Mathlib

/-!
Shallow embedding of `src/disparity-image-gui.py` (repository `depth_map_py`),
the parameter-to-image rendering pipeline of a stereo disparity viewer.

The embedding covers, faithfully to the source:
* the enum bounds (`Kernel`, `Disparities`, `Opacity`, `Scaling`) and string
  literals of the GUI;
* the four slider snap handlers (`snapSliderDisp`, `snapSliderKernel`,
  `snapSliderOpacity`, `snapSliderScaling`) and the step handlers
  (`checkAction*`), as value transformers plus handler-level functions that
  also carry label updates and the Python exception behavior;
* the render routine `drawDispImg` (readiness guard, target-size computation,
  kernel feasibility gate, stereo invocation, compositing) and the two file
  pickers `findLFile` / `findRFile`.

The target-size computation in the source is performed in Python float
(IEEE binary64) arithmetic: `int(op.mul(width, op.truediv(scalingFactor, 100)))`.
Because the claims under scrutiny concern exact floor behaviour, binary64
rounding is modelled exactly (round to nearest, ties to even, mantissa of 53
bits; all quantities involved are far inside the normal range, so overflow and
subnormals never arise and are not modelled).
-/

/-- Clamp `x` into `[lo, hi]`, as a Qt slider's `setValue`/`setSliderPosition`
does with its range. -/
def clamp (lo hi x : Nat) : Nat :=
  if x < lo then lo else if hi < x then hi else x

/-! ### String literals (source `literals` dict, lines 91-102) -/

def DISPARITIES_LIT : String := "Disparities: "

def KERNEL_LIT : String := "Kernel Size: "

def OPACITY_LIT : String := "Opacity: "

def NO_IMG_LIT : String := "No image chosen"

def SCALING_LIT : String := "Scale Factor: "

def IMG_NO_UPDATE_LIT : String := "IMAGE NOT UPDATED"

def WARN_KERNEL_SIZE_LIT : String :=
  "Kernel size exceeds image Height or Width. Reduce the kernel size."

/-! ### Exact binary64 model

The source computes `op.mul(x, op.truediv(sf, 100))` and truncates with
`int(...)`.  `op.truediv` on two Python ints produces the binary64 double
nearest to the exact quotient; the multiplication of an int below `2^53` by a
double is IEEE-correctly rounded; `int` truncates toward zero (equals floor on
non-negative values).  A positive double is represented here as a pair
`(m, e) : Nat × Int` of value `m * 2^e`. -/

/-- Floor of log base 2 of `n`, driven by explicit fuel so that it is
structurally recursive (kernel-reducible).  Meaningful when `n ≤ fuel`. -/
def log2fuel : Nat → Nat → Nat
  | 0, _ => 0
  | fuel + 1, n => if 2 ≤ n then log2fuel fuel (n / 2) + 1 else 0

/-- Floor of log base 2 of a positive natural number. -/
def nlog2 (n : Nat) : Nat := log2fuel n n

/-- Smallest `k` with `b ≤ a * 2^k`, by doubling `a`; driven by fuel
(sufficient whenever `fuel ≥ b` and `a ≥ 1`). -/
def negExpFuel : Nat → Nat → Nat → Nat
  | 0, _, _ => 0
  | fuel + 1, a, b => if b ≤ a then 0 else negExpFuel fuel (2 * a) b + 1

/-- Largest `e : ℤ` with `2^e ≤ a / b`, for positive naturals `a`, `b`. -/
def floorLog2 (a b : Nat) : Int :=
  if b ≤ a then (nlog2 (a / b) : Int) else -(negExpFuel b a b : Int)

/-- Round the fraction `a / b` to a natural number, ties to even
(IEEE `roundTiesToEven` applied to an exact scaled mantissa). -/
def rhe (a b : Nat) : Nat :=
  let q := a / b
  let r := a % b
  if 2 * r < b then q
  else if b < 2 * r then q + 1
  else if q % 2 = 0 then q else q + 1

/-- Nearest binary64 to the fraction `a / b` (`a`, `b` positive), as a
mantissa/exponent pair of value `m * 2^(e-52)` with `2^52 ≤ m ≤ 2^53`. -/
def roundFloat (a b : Nat) : Nat × Int :=
  if a = 0 then (0, 0) else
  let e := floorLog2 a b
  let m :=
    if 0 ≤ 52 - e then rhe (a * 2 ^ (52 - e).toNat) b
    else rhe a (b * 2 ^ (e - 52).toNat)
  (m, e - 52)

/-- Python `op.truediv` on non-negative ints: the correctly rounded double of
the exact quotient. -/
def pyDivFloat (a b : Nat) : Nat × Int := roundFloat a b

/-- Python `op.mul` of a non-negative int (below `2^53`, hence exactly
representable) and a double: the correctly rounded double of the exact
product. -/
def pyMulIntFloat (w : Nat) (t : Nat × Int) : Nat × Int :=
  if 0 ≤ t.2 then roundFloat (w * t.1 * 2 ^ t.2.toNat) 1
  else roundFloat (w * t.1) (2 ^ (-t.2).toNat)

/-- Python `int(...)` on a non-negative double: truncation toward zero,
i.e. the floor. -/
def pyTrunc (t : Nat × Int) : Nat :=
  if 0 ≤ t.2 then t.1 * 2 ^ t.2.toNat else t.1 / 2 ^ (-t.2).toNat

/-- Rational value of a non-negative double `(m, e)`: `m * 2^e`. -/
def floatValQ (t : Nat × Int) : ℚ := (t.1 : ℚ) * (2 : ℚ) ^ t.2

/-- One scaled dimension as the source computes it (lines 286-290):
`int(op.mul(x, op.truediv(scalingFactor, 100)))` in binary64 arithmetic. -/
def scaledDim (x sf : Nat) : Nat := pyTrunc (pyMulIntFloat x (pyDivFloat sf 100))

/-- Target dimension per the spec's words (§4.2): exact
`floor(x * scalingFactor / 100)`.  Stated only to be compared against
`scaledDim`, the dimension the source actually computes. -/
def specScaledDim (x sf : Nat) : Nat := x * sf / 100

/-! ### Parameter snap rules (source lines 217-273)

Each slider's release handler normalizes the slider's current value.  The
Qt calls `setValue` / `setSliderPosition` clamp their argument into the
slider's range, which is `[16,240]` for Disparities, `[5,255]` for KernelSize,
`[0,100]` for Opacity and `[10,100]` for ScalingFactor (source lines 132, 142,
152, 162). -/

/-- Value computed by `snapSliderDisp` (lines 217-219):
`floor(value/16 + 0.5) * 16` followed by the `setSliderPosition` clamp into
`[16, 240]`.  The float expression is exact for any value below `2^52`
(`value/16` and the sum are dyadic with at most 53 significant bits), and on
naturals `floor(v/16 + 1/2) = (v+8)/16`. -/
def snapDispVal (v : Nat) : Nat := clamp 16 240 (16 * ((v + 8) / 16))

/-- Value computed by `snapSliderKernel` (lines 233-236): if the value is
divisible by `Kernel.NOMINAL = 2`, `setValue(value+1)` (which clamps into
`[5, 255]`); then `setSliderPosition` clamps again. -/
def snapKernelVal (v : Nat) : Nat :=
  clamp 5 255 (if v % 2 = 0 then clamp 5 255 (v + 1) else v)

/-- Value computed by `snapSliderOpacity` (lines 250-253): if the value is not
divisible by `Opacity.NOMINAL = 2`, `setValue(value+1)` (which clamps into
`[0, 100]`); then `setSliderPosition` clamps again. -/
def snapOpacityVal (v : Nat) : Nat :=
  clamp 0 100 (if v % 2 ≠ 0 then clamp 0 100 (v + 1) else v)

/-- Value computed by `snapSliderScaling` (lines 267-270): if the value is not
divisible by `Scaling.NOMINAL = 2`, `setValue(value+1)` (which clamps into
`[10, 100]`); then `setSliderPosition` clamps again. -/
def snapScalingVal (v : Nat) : Nat :=
  clamp 10 100 (if v % 2 ≠ 0 then clamp 10 100 (v + 1) else v)

/-! ### Rasters and external collaborators -/

/-- A decoded grayscale raster: numpy arrays are indexed `shape = (height,
width)`; `pix x y` is the 8-bit sample at column `x`, row `y` (values beyond
the extent are irrelevant junk). -/
@[ext]
structure Raster where
  height : Nat
  width : Nat
  pix : Nat → Nat → Nat

/-- Pixel-level identity of two rasters: same dimensions and the same samples
everywhere inside the extent. -/
def Raster.EqOn (r1 r2 : Raster) : Prop :=
  r1.width = r2.width ∧ r1.height = r2.height ∧
    ∀ x y, x < r1.width → y < r1.height → r1.pix x y = r2.pix x y

/-- Opaque external collaborators: `cv.imread` (grayscale decode), the pixel
content produced by `cv.resize`, and the pixel content produced by
`cv.StereoBM_create(...).compute`.  Only their dimension behaviour is fixed by
the wrappers below; the pixel values are unconstrained parameters. -/
structure Externals where
  load : String → Raster
  resizePix : Raster → Nat → Nat → Nat → Nat → Nat
  stereoPix : Raster → Raster → Nat → Nat → Nat → Nat → Nat

/-- The raster `cv.resize(r, (dw, dh), ...)`: dimensions are the requested
`dsize`, pixel content opaque. -/
def cvResize (ext : Externals) (r : Raster) (dw dh : Nat) : Raster :=
  ⟨dh, dw, ext.resizePix r dw dh⟩

/-- The raster `cv.StereoBM_create(numDisp, ksize).compute(l, r)`: dimensions
equal the (equal-sized) input dimensions, pixel content opaque. -/
def stereoBMCompute (ext : Externals) (l r : Raster) (numDisp ksize : Nat) : Raster :=
  ⟨l.height, l.width, ext.stereoPix l r numDisp ksize⟩

/-- The cast `np.uint8(...)` applied to a raster: per-sample reduction
modulo `2^8`. -/
def npUint8 (r : Raster) : Raster := ⟨r.height, r.width, fun x y => r.pix x y % 256⟩

/-! ### Compositor -/

/-- Modelled from the spec: one grayscale sample of the QPainter source-over
blend (source lines 312-315, performed by the external Qt toolkit), per
§4.4 of the spec: the left sample is drawn over the disparity sample with
alpha `a`, i.e. `a*l + (1-a)*d`, rounded to the nearest integer sample. -/
def blendPix (a : ℚ) (l d : Nat) : Nat := (⌊a * l + (1 - a) * d + 1 / 2⌋).toNat

/-- Modelled from the spec: the compositing step of `drawDispImg` (source
lines 309-315).  `QPixmap(qImgDisp)` is the base raster; the scaled left
raster is painted onto it at the origin with `painter.setOpacity(a)`, so the
output keeps the disparity raster's dimensions, samples under the left
raster's extent are blended, and samples outside it are untouched. -/
def composite (disp leftScaled : Raster) (a : ℚ) : Raster :=
  ⟨disp.height, disp.width, fun x y =>
    if x < leftScaled.width ∧ y < leftScaled.height then
      blendPix a (leftScaled.pix x y) (disp.pix x y)
    else disp.pix x y⟩

/-! ### Scaling planner (source lines 284-290) -/

/-- Target size (width, height) computed by `drawDispImg` lines 285-290: the
raster with the strictly smaller width is the reference (ties go to the right
raster), and each of its dimensions is scaled by `scalingFactor/100` in
binary64 arithmetic and truncated. -/
def computeTargetSize (imgL imgR : Raster) (sf : Nat) : Nat × Nat :=
  if imgL.width < imgR.width then
    (scaledDim imgL.width sf, scaledDim imgL.height sf)
  else
    (scaledDim imgR.width sf, scaledDim imgR.height sf)

/-! ### GUI state and the render pipeline -/

/-- Outcome of one call to `drawDispImg`: the early `return` when fewer than
two images are chosen, the warning dialog when the kernel is infeasible, or a
newly rendered composite handed to `dispImg.setPixmap`. -/
inductive RenderResult where
  | skipped
  | warned (title msg : String)
  | rendered (img : Raster)

/-- Mutable state of `MainWindow` relevant to the pipeline: the four
parameter fields (lines 107-110), the two photo file paths (`self.files`,
keyed `Photo.LEFT`/`Photo.RIGHT`), the user-visible label texts, and the
currently displayed composite pixmap (`self.dispImg`). -/
structure GuiState where
  disparities : Nat
  kernel : Nat
  opacity : Nat
  scalingFactor : Nat
  fileL : Option String
  fileR : Option String
  leftLabel : String
  rightLabel : String
  dispLabel : String
  kernelLabel : String
  opacityLabel : String
  scalingLabel : String
  displayed : Option Raster

/-- Render routine `drawDispImg` (source lines 277-317).  The slider value
`self.sliderKernel.value()` read at line 295 always equals `self.kernel`
here, since every handler copies the slider value into the field before
calling `drawDispImg`. -/
def drawDispImg (ext : Externals) (s : GuiState) : GuiState × RenderResult :=
  match s.fileL, s.fileR with
  | some fl, some fr =>
    let imgL := ext.load fl
    let imgR := ext.load fr
    let dim := computeTargetSize imgL imgR s.scalingFactor
    if s.kernel > dim.2 ∨ s.kernel > dim.1 then
      (s, .warned IMG_NO_UPDATE_LIT WARN_KERNEL_SIZE_LIT)
    else
      let rL := cvResize ext imgL dim.1 dim.2
      let rR := cvResize ext imgR dim.1 dim.2
      let dispRaster := npUint8 (stereoBMCompute ext rL rR s.disparities s.kernel)
      let comp := composite dispRaster rL (floatValQ (pyDivFloat s.opacity 100))
      ({ s with displayed := some comp }, .rendered comp)
  | _, _ => (s, .skipped)

/-! ### File pickers (source lines 320-336) -/

/-- Handler `findLFile`: when the dialog returns a non-empty file name, store
it in `self.files[Photo.LEFT]`, show it in the left file-name label, and
re-render; a cancelled dialog (empty name) does nothing.  The second
component records whether (and how) a render attempt ran. -/
def findLFile (ext : Externals) (s : GuiState) (fileName : String) :
    GuiState × Option RenderResult :=
  if fileName = "" then (s, none)
  else
    let s1 := { s with fileL := some fileName, leftLabel := fileName }
    let (s2, r) := drawDispImg ext s1
    (s2, some r)

/-- Handler `findRFile`, the right-slot twin of `findLFile`. -/
def findRFile (ext : Externals) (s : GuiState) (fileName : String) :
    GuiState × Option RenderResult :=
  if fileName = "" then (s, none)
  else
    let s1 := { s with fileR := some fileName, rightLabel := fileName }
    let (s2, r) := drawDispImg ext s1
    (s2, some r)

/-! ### Snap handlers at GUI level (source lines 217-222, 233-239, 267-273) -/

/-- Python exception raised by an embedded expression. -/
inductive PyError where
  | typeError
deriving DecidableEq

/-- Python `str` on a non-negative int. -/
def pyStrOfNat (n : Nat) : String := toString n

/-- Python `str(object, encoding)` where both arguments are ints, as evaluated
by source line 272 `str(self.scalingFactor, Scaling.MAX)`: the two-argument
form of `str` decodes a bytes-like object, so an `int` argument always raises
`TypeError`. -/
def pyStrIntEnc (_n _enc : Nat) : Except PyError String := .error .typeError

/-- Handler `snapSliderDisp` (lines 217-222): snap the released slider value
`v`, copy it into `self.disparities`, refresh the label, then re-render. -/
def snapSliderDisp (ext : Externals) (s : GuiState) (v : Nat) :
    GuiState × Except PyError RenderResult :=
  let v' := snapDispVal v
  let s1 := { s with disparities := v', dispLabel := DISPARITIES_LIT ++ pyStrOfNat v' }
  let (s2, r) := drawDispImg ext s1
  (s2, .ok r)

/-- Handler `snapSliderKernel` (lines 233-239). -/
def snapSliderKernel (ext : Externals) (s : GuiState) (v : Nat) :
    GuiState × Except PyError RenderResult :=
  let v' := snapKernelVal v
  let s1 := { s with kernel := v', kernelLabel := KERNEL_LIT ++ pyStrOfNat v' }
  let (s2, r) := drawDispImg ext s1
  (s2, .ok r)

/-- Handler `snapSliderScaling` (lines 267-273): the snapped value is stored
into `self.scalingFactor` (line 271), but the label update at line 272
evaluates `str(self.scalingFactor, Scaling.MAX)`, which raises `TypeError`,
so neither the label update nor the `drawDispImg()` call at line 273 is
reached. -/
def snapSliderScaling (ext : Externals) (s : GuiState) (v : Nat) :
    GuiState × Except PyError RenderResult :=
  let v' := snapScalingVal v
  let s1 := { s with scalingFactor := v' }
  match pyStrIntEnc v' 100 with
  | .error e => (s1, .error e)
  | .ok t =>
    let s2 := { s1 with scalingLabel := SCALING_LIT ++ t }
    let (s3, r) := drawDispImg ext s2
    (s3, .ok r)

/-! ### Initial state (source lines 106-206) -/

/-- State of `MainWindow.__init__` after construction: `disparities =
Disparities.NOMINAL*4 = 64`, `kernel = Kernel.MIN*3 = 15`, `opacity =
Opacity.MAX/2 = 50` (an integral Python float), `scalingFactor =
Scaling.MIN*1 = 10`, no files chosen, labels per lines 173-184, and the
closing `drawDispImg()` call (line 206) returns at its readiness guard so no
composite is displayed. -/
def guiInit : GuiState :=
  { disparities := 64, kernel := 15, opacity := 50, scalingFactor := 10,
    fileL := none, fileR := none,
    leftLabel := NO_IMG_LIT, rightLabel := NO_IMG_LIT,
    dispLabel := DISPARITIES_LIT ++ pyStrOfNat 64,
    kernelLabel := KERNEL_LIT ++ pyStrOfNat 15,
    opacityLabel := OPACITY_LIT ++ "0.5",
    scalingLabel := SCALING_LIT ++ pyStrOfNat 10,
    displayed := none }

/-! ### Parameter event machine (for the store invariant)

Steps and snaps only touch the four parameter fields; render attempts never
write them.  A single-step or page-step action moves the slider position by
the configured step and clamps into the range (Qt adjusts the position before
the `actionTriggered` handler copies it into the field); a release snaps from
whatever in-range position the drag reached. -/

/-- Parameter fields of the store. -/
structure Params where
  disparities : Nat
  kernel : Nat
  opacity : Nat
  scalingFactor : Nat

/-- Initial parameter values (source lines 107-110). -/
def Params.init : Params :=
  { disparities := 16 * 4, kernel := 5 * 3, opacity := 100 / 2, scalingFactor := 10 * 1 }

/-- Which slider an event concerns. -/
inductive ParamKind where
  | disparities
  | kernel
  | opacity
  | scaling

/-- One inbound slider event: a single-step or page-step action in either
direction, or a slider release at a drag position. -/
inductive SliderEv where
  | stepUp (p : ParamKind) (page : Bool)
  | stepDown (p : ParamKind) (page : Bool)
  | release (p : ParamKind) (dragPos : Nat)

/-- Single-step sizes (source lines 134, 144, 154, 164). -/
def singleStepOf : ParamKind → Nat
  | .disparities => 16
  | .kernel => 2
  | .opacity => 2
  | .scaling => 2

/-- Page-step sizes (source lines 135, 145, 155, 165). -/
def pageStepOf : ParamKind → Nat
  | .disparities => 16 * 3
  | .kernel => 2 * 10
  | .opacity => 2 * 5
  | .scaling => 2 * 5

/-- Slider ranges (source lines 132, 142, 152, 162). -/
def rangeOf : ParamKind → Nat × Nat
  | .disparities => (16, 240)
  | .kernel => (5, 255)
  | .opacity => (0, 100)
  | .scaling => (10, 100)

/-- Read the field a slider mirrors. -/
def Params.get (s : Params) : ParamKind → Nat
  | .disparities => s.disparities
  | .kernel => s.kernel
  | .opacity => s.opacity
  | .scaling => s.scalingFactor

/-- Write the field a slider mirrors. -/
def Params.set (s : Params) : ParamKind → Nat → Params
  | .disparities, v => { s with disparities := v }
  | .kernel, v => { s with kernel := v }
  | .opacity, v => { s with opacity := v }
  | .scaling, v => { s with scalingFactor := v }

/-- Snap rule applied by the release handler of each slider. -/
def snapValOf : ParamKind → Nat → Nat
  | .disparities => snapDispVal
  | .kernel => snapKernelVal
  | .opacity => snapOpacityVal
  | .scaling => snapScalingVal

/-- Apply one slider event to the parameter store. -/
def applyEv (s : Params) : SliderEv → Params
  | .stepUp p page =>
    s.set p (clamp (rangeOf p).1 (rangeOf p).2
      (s.get p + if page then pageStepOf p else singleStepOf p))
  | .stepDown p page =>
    s.set p (clamp (rangeOf p).1 (rangeOf p).2
      (s.get p - if page then pageStepOf p else singleStepOf p))
  | .release p pos =>
    s.set p (snapValOf p (clamp (rangeOf p).1 (rangeOf p).2 pos))

/-- The §3 Parameter invariant: every field is within its bounds and is a
valid snapped value for its rule (a multiple of 16, odd, even, even
respectively). -/
def ParamsValid (s : Params) : Prop :=
  (s.disparities % 16 = 0 ∧ 16 ≤ s.disparities ∧ s.disparities ≤ 240) ∧
  (s.kernel % 2 = 1 ∧ 5 ≤ s.kernel ∧ s.kernel ≤ 255) ∧
  (s.opacity % 2 = 0 ∧ s.opacity ≤ 100) ∧
  (s.scalingFactor % 2 = 0 ∧ 10 ≤ s.scalingFactor ∧ s.scalingFactor ≤ 100)

/-! ### Concrete collaborators and states used to instantiate the theorems -/

/-- Example collaborator: a 640x480 left photo, an 800x600 right photo,
constant pixel content everywhere. -/
def exampleExt : Externals :=
  { load := fun p => if p = "left.png" then ⟨480, 640, fun _ _ => 0⟩ else ⟨600, 800, fun _ _ => 0⟩,
    resizePix := fun _ _ _ _ _ => 0,
    stereoPix := fun _ _ _ _ _ _ => 0 }

/-- The initial state after both photos have been chosen. -/
def guiReady : GuiState :=
  { guiInit with fileL := some "left.png", fileR := some "right.png" }

/-- Same, but with the kernel slider released at its maximum 255, which
exceeds the scaled 64x48 target. -/
def guiWarnState : GuiState := { guiReady with kernel := 255 }

/-! ## Helper lemmas -/

theorem log2fuel_spec : ∀ f n : Nat, 1 ≤ n → n ≤ f →
    2 ^ log2fuel f n ≤ n ∧ n < 2 ^ (log2fuel f n + 1) := by
  intro f
  induction f with
  | zero => intro n h1 h2; omega
  | succ f ih =>
    intro n h1 h2
    rw [log2fuel]
    split
    · next h =>
      obtain ⟨hl, hr⟩ := ih (n / 2) (by omega) (by omega)
      simp only [pow_succ] at *
      omega
    · next h =>
      simp only [pow_succ, pow_zero]
      omega

theorem nlog2_spec (n : Nat) (h : 1 ≤ n) :
    2 ^ nlog2 n ≤ n ∧ n < 2 ^ (nlog2 n + 1) :=
  log2fuel_spec n n h le_rfl

theorem nlog2_le_52 (w : Nat) (h1 : 1 ≤ w) (h2 : w < 2 ^ 53) : nlog2 w ≤ 52 := by
  by_contra hc
  have h3 : 2 ^ 53 ≤ 2 ^ nlog2 w := Nat.pow_le_pow_right (by norm_num) (by omega)
  have h4 := (nlog2_spec w h1).1
  omega

theorem rhe_of_dvd (a b : Nat) (hb : 0 < b) (h : b ∣ a) : rhe a b = a / b := by
  have hm : a % b = 0 := Nat.mod_eq_zero_of_dvd h
  unfold rhe
  simp [hm, hb]

theorem floorLog2_mul_pow52 (w : Nat) (h0 : 0 < w) :
    floorLog2 (w * 2 ^ 52) (2 ^ 52) = (nlog2 w : Int) := by
  unfold floorLog2
  rw [if_pos (Nat.le_mul_of_pos_left _ h0), Nat.mul_div_cancel _ (by positivity)]

theorem pyTrunc_roundFloat_exact (w : Nat) (h0 : 0 < w) (h53 : w < 2 ^ 53) :
    pyTrunc (roundFloat (w * 2 ^ 52) (2 ^ 52)) = w := by
  have hw1 : ¬ w * 2 ^ 52 = 0 := by positivity
  have hLle : nlog2 w ≤ 52 := nlog2_le_52 w h0 h53
  have hcond : (0 : Int) ≤ 52 - (nlog2 w : Int) := by omega
  have htn : ((52 : Int) - (nlog2 w : Int)).toNat = 52 - nlog2 w := by omega
  have hdvd : (2 : Nat) ^ 52 ∣ w * 2 ^ 52 * 2 ^ (52 - nlog2 w) :=
    ⟨w * 2 ^ (52 - nlog2 w), by ring⟩
  have hq : w * 2 ^ 52 * 2 ^ (52 - nlog2 w) / 2 ^ 52 = w * 2 ^ (52 - nlog2 w) := by
    rw [show w * 2 ^ 52 * 2 ^ (52 - nlog2 w) = w * 2 ^ (52 - nlog2 w) * 2 ^ 52 by ring,
      Nat.mul_div_cancel _ (by positivity)]
  simp only [roundFloat, if_neg hw1, floorLog2_mul_pow52 w h0, if_pos hcond, htn,
    rhe_of_dvd _ _ (by positivity) hdvd, hq]
  by_cases hL52 : nlog2 w = 52
  · simp only [pyTrunc, hL52]
    norm_num
  · have hneg : ¬ (0 : Int) ≤ (nlog2 w : Int) - 52 := by omega
    have htn2 : (-((nlog2 w : Int) - 52)).toNat = 52 - nlog2 w := by omega
    simp only [pyTrunc, hneg, if_false, htn2]
    exact Nat.mul_div_cancel _ (by positivity)

theorem scaledDim_hundred (w : Nat) (h0 : 0 < w) (h53 : w < 2 ^ 53) :
    scaledDim w 100 = w := by
  have hdiv : pyDivFloat 100 100 = (2 ^ 52, -52) := by decide
  have hneg : ¬ (0 : Int) ≤ ((2 ^ 52 : Nat), (-52 : Int)).2 := by decide
  have htn : (2 : Nat) ^ ((-((2 ^ 52 : Nat), (-52 : Int)).2).toNat) = 2 ^ 52 := by decide
  unfold scaledDim
  rw [hdiv, pyMulIntFloat, if_neg hneg, htn]
  exact pyTrunc_roundFloat_exact w h0 h53

theorem blendPix_zero (l d : Nat) : blendPix 0 l d = d := by
  have h : (0 : ℚ) * l + (1 - 0) * d + 1 / 2 = d + 1 / 2 := by ring
  have hf : ⌊(d : ℚ) + 1 / 2⌋ = (d : Int) := by
    rw [Int.floor_eq_iff]
    constructor
    · push_cast; linarith
    · push_cast; linarith
  unfold blendPix
  rw [h, hf]
  omega

theorem blendPix_one (l d : Nat) : blendPix 1 l d = l := by
  have h : (1 : ℚ) * l + (1 - 1) * d + 1 / 2 = l + 1 / 2 := by ring
  have hf : ⌊(l : ℚ) + 1 / 2⌋ = (l : Int) := by
    rw [Int.floor_eq_iff]
    constructor
    · push_cast; linarith
    · push_cast; linarith
  unfold blendPix
  rw [h, hf]
  omega

theorem snapDispVal_bounds (v : Nat) :
    snapDispVal v % 16 = 0 ∧ 16 ≤ snapDispVal v ∧ snapDispVal v ≤ 240 := by
  unfold snapDispVal clamp
  split_ifs <;> omega

theorem snapKernelVal_bounds (v : Nat) :
    snapKernelVal v % 2 = 1 ∧ 5 ≤ snapKernelVal v ∧ snapKernelVal v ≤ 255 := by
  unfold snapKernelVal clamp
  split_ifs <;> omega

theorem snapOpacityVal_bounds (v : Nat) :
    snapOpacityVal v % 2 = 0 ∧ snapOpacityVal v ≤ 100 := by
  unfold snapOpacityVal clamp
  split_ifs <;> omega

theorem snapScalingVal_bounds (v : Nat) :
    snapScalingVal v % 2 = 0 ∧ 10 ≤ snapScalingVal v ∧ snapScalingVal v ≤ 100 := by
  unfold snapScalingVal clamp
  split_ifs <;> omega

theorem clamp16_mod (v : Nat) (hv : v % 16 = 0) :
    clamp 16 240 v % 16 = 0 ∧ 16 ≤ clamp 16 240 v ∧ clamp 16 240 v ≤ 240 := by
  unfold clamp
  split_ifs <;> omega

theorem clamp2_odd (v : Nat) (hv : v % 2 = 1 ∨ v = 0) :
    clamp 5 255 v % 2 = 1 ∧ 5 ≤ clamp 5 255 v ∧ clamp 5 255 v ≤ 255 := by
  unfold clamp
  split_ifs <;> omega

theorem clamp2_even0 (v : Nat) (hv : v % 2 = 0) :
    clamp 0 100 v % 2 = 0 ∧ clamp 0 100 v ≤ 100 := by
  unfold clamp
  split_ifs <;> omega

theorem clamp2_even10 (v : Nat) (hv : v % 2 = 0) :
    clamp 10 100 v % 2 = 0 ∧ 10 ≤ clamp 10 100 v ∧ clamp 10 100 v ≤ 100 := by
  unfold clamp
  split_ifs <;> omega

theorem applyEv_preserves (s : Params) (e : SliderEv) (h : ParamsValid s) :
    ParamsValid (applyEv s e) := by
  obtain ⟨hd, hk, ho, hsc⟩ := h
  cases e with
  | stepUp p page =>
    cases p
    · refine ⟨clamp16_mod _ ?_, hk, ho, hsc⟩
      simp only [Params.get, pageStepOf, singleStepOf]
      split_ifs <;> omega
    · refine ⟨hd, clamp2_odd _ ?_, ho, hsc⟩
      simp only [Params.get, pageStepOf, singleStepOf]
      split_ifs <;> omega
    · refine ⟨hd, hk, clamp2_even0 _ ?_, hsc⟩
      simp only [Params.get, pageStepOf, singleStepOf]
      split_ifs <;> omega
    · refine ⟨hd, hk, ho, clamp2_even10 _ ?_⟩
      simp only [Params.get, pageStepOf, singleStepOf]
      split_ifs <;> omega
  | stepDown p page =>
    cases p
    · refine ⟨clamp16_mod _ ?_, hk, ho, hsc⟩
      simp only [Params.get, pageStepOf, singleStepOf]
      split_ifs <;> omega
    · refine ⟨hd, clamp2_odd _ ?_, ho, hsc⟩
      simp only [Params.get, pageStepOf, singleStepOf]
      split_ifs <;> omega
    · refine ⟨hd, hk, clamp2_even0 _ ?_, hsc⟩
      simp only [Params.get, pageStepOf, singleStepOf]
      split_ifs <;> omega
    · refine ⟨hd, hk, ho, clamp2_even10 _ ?_⟩
      simp only [Params.get, pageStepOf, singleStepOf]
      split_ifs <;> omega
  | release p pos =>
    cases p
    · exact ⟨snapDispVal_bounds _, hk, ho, hsc⟩
    · exact ⟨hd, snapKernelVal_bounds _, ho, hsc⟩
    · exact ⟨hd, hk, snapOpacityVal_bounds _, hsc⟩
    · exact ⟨hd, hk, ho, snapScalingVal_bounds _⟩

theorem paramsValid_foldl (evs : List SliderEv) :
    ∀ s : Params, ParamsValid s → ParamsValid (evs.foldl applyEv s) := by
  induction evs with
  | nil => exact fun s h => h
  | cons e t ih => exact fun s h => ih (applyEv s e) (applyEv_preserves s e h)

/-! ## Claim theorems -/

/-- C1: for every render attempt with both images set, if the kernel size
exceeds the scaled target height or exceeds the scaled target width, then no
disparity computation is attempted, the warning with the fixed title
"IMAGE NOT UPDATED" and its fixed message is surfaced, and the state — in
particular the previously displayed composite — is left unchanged. -/
theorem C1_infeasible_kernel_warns_and_preserves_display
    (ext : Externals) (s : GuiState) (fl fr : String)
    (hL : s.fileL = some fl) (hR : s.fileR = some fr)
    (hk : s.kernel > (computeTargetSize (ext.load fl) (ext.load fr) s.scalingFactor).2 ∨
          s.kernel > (computeTargetSize (ext.load fl) (ext.load fr) s.scalingFactor).1) :
    drawDispImg ext s =
      (s, RenderResult.warned "IMAGE NOT UPDATED"
        "Kernel size exceeds image Height or Width. Reduce the kernel size.") := by
  simp only [drawDispImg, hL, hR]
  rw [if_pos hk]
  simp [IMG_NO_UPDATE_LIT, WARN_KERNEL_SIZE_LIT]

/-- Witness for C1: the kernel slider at 255 against the 64x48 target scaled
from the example photos at scaling factor 10. -/
theorem C1_witness :
    drawDispImg exampleExt guiWarnState =
      (guiWarnState, RenderResult.warned "IMAGE NOT UPDATED"
        "Kernel size exceeds image Height or Width. Reduce the kernel size.") :=
  C1_infeasible_kernel_warns_and_preserves_display exampleExt guiWarnState
    "left.png" "right.png" rfl rfl (by decide)

/-- C9: with fewer than two image slots filled, a render attempt is a silent
no-op: it returns at the readiness guard without producing a composite and
without changing any state. -/
theorem C9_missing_image_renders_nothing (ext : Externals) (s : GuiState)
    (h : s.fileL = none ∨ s.fileR = none) :
    drawDispImg ext s = (s, RenderResult.skipped) := by
  rcases h with h | h
  · simp [drawDispImg, h]
  · cases hL : s.fileL with
    | none => simp [drawDispImg, hL]
    | some fl => simp [drawDispImg, hL, h]

/-- Witness for C9: the freshly initialized window with no files chosen. -/
theorem C9_witness : drawDispImg exampleExt guiInit = (guiInit, RenderResult.skipped) :=
  C9_missing_image_renders_nothing exampleExt guiInit (Or.inl rfl)

/-- C10: a cancelled file dialog (empty file name) leaves the stored path,
the file-name label and the displayed composite — the whole state — unchanged
and triggers no render attempt, for either slot. -/
theorem C10_cancelled_dialog_changes_nothing (ext : Externals) (s : GuiState) :
    findLFile ext s "" = (s, none) ∧ findRFile ext s "" = (s, none) := by
  constructor <;> simp [findLFile, findRFile]

/-- C3 (failing part): the ScalingFactor snap handler never completes — the
label update evaluates Python `str(value, Scaling.MAX)`, which raises
`TypeError`, so the scale-factor label keeps its old text and no re-render is
requested; only the value field has been updated.  This contradicts the claim
that every snap updates its label and is followed by a re-render without
error. -/
theorem C3_scaling_snap_raises_type_error (ext : Externals) (s : GuiState) (v : Nat) :
    (snapSliderScaling ext s v).2 = Except.error PyError.typeError ∧
    (snapSliderScaling ext s v).1 = { s with scalingFactor := snapScalingVal v } :=
  ⟨rfl, rfl⟩

/-- C4: the Disparities snap rounds to the nearest multiple of 16 (the
pre-clamp result is the unique multiple of 16 within 8 of the input, ties
upward) and clamps to [16, 240]; hence the output is always a multiple of 16
in [16, 240]; input 70 gives 64 and input 248 clamps to 240. -/
theorem C4_disparities_snap_rounds_to_16_and_clamps :
    (∀ v : Nat, (16 * ((v + 8) / 16)) % 16 = 0 ∧
      v < 16 * ((v + 8) / 16) + 8 ∧ 16 * ((v + 8) / 16) ≤ v + 8 ∧
      snapDispVal v = clamp 16 240 (16 * ((v + 8) / 16))) ∧
    (∀ v : Nat, snapDispVal v % 16 = 0 ∧ 16 ≤ snapDispVal v ∧ snapDispVal v ≤ 240) ∧
    snapDispVal 70 = 64 ∧ snapDispVal 248 = 240 := by
  refine ⟨fun v => ⟨?_, ?_, ?_, rfl⟩, fun v => snapDispVal_bounds v, by decide, by decide⟩
  all_goals omega

/-- C5: the KernelSize snap increments an even value by 1, leaves an odd one
unchanged, and clamps to [5, 255]; hence the output is always odd in
[5, 255]; input 10 gives 11 and input 255 stays 255. -/
theorem C5_kernel_snap_odd_within_bounds :
    (∀ v : Nat, snapKernelVal v = clamp 5 255 (if v % 2 = 0 then v + 1 else v)) ∧
    (∀ v : Nat, snapKernelVal v % 2 = 1 ∧ 5 ≤ snapKernelVal v ∧ snapKernelVal v ≤ 255) ∧
    snapKernelVal 10 = 11 ∧ snapKernelVal 255 = 255 := by
  refine ⟨fun v => ?_, fun v => snapKernelVal_bounds v, by decide, by decide⟩
  unfold snapKernelVal clamp
  split_ifs <;> omega

/-- C6: the Opacity and ScalingFactor snaps increment a value not divisible
by 2 by exactly 1 and leave multiples of 2 unchanged (the increment-by-one
fix-up, not round-to-nearest), yielding a multiple of 2 within [0, 100]
respectively [10, 100]. -/
theorem C6_opacity_scaling_snap_increment_fixup :
    (∀ v : Nat, v ≤ 100 →
      (v % 2 ≠ 0 → snapOpacityVal v = v + 1) ∧ (v % 2 = 0 → snapOpacityVal v = v)) ∧
    (∀ v : Nat, snapOpacityVal v % 2 = 0 ∧ snapOpacityVal v ≤ 100) ∧
    (∀ v : Nat, 10 ≤ v → v ≤ 100 →
      (v % 2 ≠ 0 → snapScalingVal v = v + 1) ∧ (v % 2 = 0 → snapScalingVal v = v)) ∧
    (∀ v : Nat, snapScalingVal v % 2 = 0 ∧ 10 ≤ snapScalingVal v ∧ snapScalingVal v ≤ 100) := by
  refine ⟨fun v hv => ⟨fun ho => ?_, fun he => ?_⟩, fun v => snapOpacityVal_bounds v,
    fun v h10 h100 => ⟨fun ho => ?_, fun he => ?_⟩, fun v => snapScalingVal_bounds v⟩ <;>
    simp only [snapOpacityVal, snapScalingVal, clamp] <;> split_ifs <;> omega

/-- Witness for C6: an odd and an even concrete value in each domain. -/
theorem C6_witness :
    snapOpacityVal 51 = 52 ∧ snapOpacityVal 50 = 50 ∧
    snapScalingVal 11 = 12 ∧ snapScalingVal 10 = 10 :=
  ⟨(C6_opacity_scaling_snap_increment_fixup.1 51 (by decide)).1 (by decide),
   (C6_opacity_scaling_snap_increment_fixup.1 50 (by decide)).2 (by decide),
   (C6_opacity_scaling_snap_increment_fixup.2.2.1 11 (by decide) (by decide)).1 (by decide),
   (C6_opacity_scaling_snap_increment_fixup.2.2.1 10 (by decide) (by decide)).2 (by decide)⟩

/-- C7: each of the four parameters is an integer within its bounds and a
valid snapped multiple per its rule, at initialization and after every
sequence of step and snap operations. -/
theorem C7_parameter_invariant_holds_always :
    ParamsValid Params.init ∧
    ∀ evs : List SliderEv, ParamsValid (evs.foldl applyEv Params.init) := by
  have hinit : ParamsValid Params.init := by
    refine ⟨⟨?_, ?_, ?_⟩, ⟨?_, ?_, ?_⟩, ⟨?_, ?_⟩, ⟨?_, ?_, ?_⟩⟩ <;> decide
  exact ⟨hinit, fun evs => paramsValid_foldl evs Params.init hinit⟩

/-- C8: the composite keeps the disparity raster's dimensions; at opacity 0
it equals the disparity raster outright, and at opacity 1 (given the two
rasters share dimensions, as the pipeline guarantees) it is pixel-identical
to the scaled left raster. -/
theorem C8_composite_dims_and_opacity_extremes (disp leftScaled : Raster) (a : ℚ) :
    ((composite disp leftScaled a).width = disp.width ∧
     (composite disp leftScaled a).height = disp.height) ∧
    composite disp leftScaled 0 = disp ∧
    (leftScaled.width = disp.width → leftScaled.height = disp.height →
      Raster.EqOn (composite disp leftScaled 1) leftScaled) := by
  refine ⟨⟨rfl, rfl⟩, ?_, fun hw hh => ⟨hw.symm, hh.symm, fun x y hx hy => ?_⟩⟩
  · refine Raster.ext rfl rfl ?_
    funext x y
    show (if x < leftScaled.width ∧ y < leftScaled.height then
      blendPix 0 (leftScaled.pix x y) (disp.pix x y) else disp.pix x y) = disp.pix x y
    split_ifs with hc
    · exact blendPix_zero _ _
    · rfl
  · have hx' : x < leftScaled.width := by
      simpa [composite, hw] using hx
    have hy' : y < leftScaled.height := by
      simpa [composite, hh] using hy
    show (if x < leftScaled.width ∧ y < leftScaled.height then
      blendPix 1 (leftScaled.pix x y) (disp.pix x y) else disp.pix x y) = leftScaled.pix x y
    rw [if_pos ⟨hx', hy'⟩, blendPix_one]

/-- Witness for C8: two constant 2x2 rasters, opacity 1. -/
theorem C8_witness :
    Raster.EqOn (composite ⟨2, 2, fun _ _ => 7⟩ ⟨2, 2, fun _ _ => 9⟩ 1)
      ⟨2, 2, fun _ _ => 9⟩ :=
  (C8_composite_dims_and_opacity_extremes ⟨2, 2, fun _ _ => 7⟩ ⟨2, 2, fun _ _ => 9⟩ 0).2.2
    rfl rfl

/-- C2 fails as stated: the source computes each target dimension as
`int(width * (scalingFactor/100))` in binary64 float arithmetic, which is not
always `floor(width * scalingFactor / 100)`.  At reference width 100 and
scaling factor 58 (an even, reachable value) the float product is just below
58, so the code truncates to 57 while the claimed exact floor is 58. -/
theorem C2_counterexample_float_truncation :
    computeTargetSize ⟨100, 100, fun _ _ => 0⟩ ⟨200, 200, fun _ _ => 0⟩ 58 = (57, 57) ∧
    specScaledDim 100 58 = 58 ∧
    scaledDim 100 58 ≠ specScaledDim 100 58 :=
  ⟨by decide, by decide, by decide⟩

/-- C2 as amended: the reference raster is the one with the strictly smaller
width (ties go to the right raster); each target dimension is the binary64
truncation `scaledDim`; a feasible render resizes both rasters to exactly
this target (the rendered composite carries those dimensions); scaling
factor 100 is exact for every positive width below 2^53; and the documented
example left=(640,480), right=(800,600), factor 50 yields (320, 240). -/
theorem C2_amended_target_size :
    (∀ (ext : Externals) (s : GuiState) (fl fr : String),
      s.fileL = some fl → s.fileR = some fr →
      ¬(s.kernel > (computeTargetSize (ext.load fl) (ext.load fr) s.scalingFactor).2 ∨
        s.kernel > (computeTargetSize (ext.load fl) (ext.load fr) s.scalingFactor).1) →
      ∃ c : Raster,
        drawDispImg ext s = ({ s with displayed := some c }, RenderResult.rendered c) ∧
        c.width = (computeTargetSize (ext.load fl) (ext.load fr) s.scalingFactor).1 ∧
        c.height = (computeTargetSize (ext.load fl) (ext.load fr) s.scalingFactor).2) ∧
    (∀ (imgL imgR : Raster) (sf : Nat), imgL.width < imgR.width →
      computeTargetSize imgL imgR sf = (scaledDim imgL.width sf, scaledDim imgL.height sf)) ∧
    (∀ (imgL imgR : Raster) (sf : Nat), ¬imgL.width < imgR.width →
      computeTargetSize imgL imgR sf = (scaledDim imgR.width sf, scaledDim imgR.height sf)) ∧
    (∀ w : Nat, 0 < w → w < 2 ^ 53 → scaledDim w 100 = w) ∧
    computeTargetSize ⟨480, 640, fun _ _ => 0⟩ ⟨600, 800, fun _ _ => 0⟩ 50 = (320, 240) := by
  refine ⟨fun ext s fl fr hL hR hfeas => ?_, fun imgL imgR sf h => ?_,
    fun imgL imgR sf h => ?_, fun w h0 h53 => scaledDim_hundred w h0 h53, by decide⟩
  · simp only [drawDispImg, hL, hR]
    rw [if_neg hfeas]
    exact ⟨_, rfl, rfl, rfl⟩
  · unfold computeTargetSize
    rw [if_pos h]
  · unfold computeTargetSize
    rw [if_neg h]

/-- Witness for C2: the example photos at the default scaling factor render a
composite of the computed 64x48 target, and factor 100 is exact at width 5. -/
theorem C2_witness :
    (∃ c : Raster,
      drawDispImg exampleExt guiReady =
        ({ guiReady with displayed := some c }, RenderResult.rendered c) ∧
      c.width = (computeTargetSize (exampleExt.load "left.png")
        (exampleExt.load "right.png") guiReady.scalingFactor).1 ∧
      c.height = (computeTargetSize (exampleExt.load "left.png")
        (exampleExt.load "right.png") guiReady.scalingFactor).2) ∧
    scaledDim 5 100 = 5 :=
  ⟨C2_amended_target_size.1 exampleExt guiReady "left.png" "right.png" rfl rfl (by decide),
   C2_amended_target_size.2.2.2.1 5 (by decide) (by decide)⟩
